import Mathlib

/-!
Verification of the circuit-breaker-mesh dashboard client.

This file gives a shallow embedding of the client's core subsystems and
proves (or refutes) the specified properties about them:

* the Request Gateway (`apiFetch` in the services/api module): timeout
  enforcement, HTTP-status classification, error-body extraction, and the
  success/failure envelope normalization;
* the Status Aggregator (`refreshAgentData` in `App.jsx`): the per-identity
  circuit+cost call pairs, the partial-pair discard rule, the overlay merge
  of snapshots, the derived `backendOnline` verdict, and the order in which
  pairs are issued and settled within one refresh cycle;
* the Conversation Dispatcher (`handleSend` in `App.jsx`): the blank-input
  no-op guard, the mode-specific assistant-entry shapes, and the
  post-exchange refresh;
* the 3D mesh polling loop (`fetchStates` in `CircuitMesh3D`), which reads
  per-agent fields from the wrong level of the gateway envelope.

JavaScript values that cross the gateway boundary are modelled by a small
`Json` type with JavaScript truthiness, property access, and
template-literal stringification.  Payloads that the application layer
consumes after a successful call are modelled by the typed records of the
repository's generated API client (`CircuitBreakerState`, the cost
response, the query response, the simple-chat response), so application
code that reads fields of a successful payload is total, matching the
documented API contract.
-/

namespace CircuitBreakerMesh

/-- A JavaScript value as seen by the gateway: JSON values plus
`undefined` (the result of reading an absent property). -/
inductive Json where
  | null
  | undef
  | bool (b : Bool)
  | num (n : Int)
  | str (s : String)
  | arr (elems : List Json)
  | obj (fields : List (String × Json))

/-- JavaScript truthiness of a value. -/
def Json.truthy : Json → Bool
  | .null => false
  | .undef => false
  | .bool b => b
  | .num n => n != 0
  | .str s => s != ""
  | .arr _ => true
  | .obj _ => true

/-- JavaScript property access `v.k`.  Returns `none` when the access
throws a `TypeError` (reading a property of `null`/`undefined`); reading a
missing key of an object, or any key of a primitive, yields `undefined`. -/
def Json.getProp : Json → String → Option Json
  | .null, _ => none
  | .undef, _ => none
  | .obj fs, k => some ((fs.lookup k).getD .undef)
  | _, _ => some .undef

mutual

/-- JavaScript string conversion of a value, as used by a template
literal. -/
def Json.jsStr : Json → String
  | .null => "null"
  | .undef => "undefined"
  | .bool b => if b then "true" else "false"
  | .num n => toString n
  | .str s => s
  | .arr xs => Json.jsStrList xs
  | .obj _ => "[object Object]"

/-- Array-to-string conversion: elements joined by commas, with
`null`/`undefined` elements rendered as the empty string. -/
def Json.jsStrList : List Json → String
  | [] => ""
  | [x] => Json.jsStrElem x
  | x :: y :: xs => Json.jsStrElem x ++ "," ++ Json.jsStrList (y :: xs)

/-- One array element inside a join. -/
def Json.jsStrElem : Json → String
  | .null => ""
  | .undef => ""
  | x => Json.jsStr x

end

/-- Does the character list `hay` start with `needle`? -/
def startsWithCL : List Char → List Char → Bool
  | _, [] => true
  | [], _ :: _ => false
  | h :: hs, n :: ns => h = n && startsWithCL hs ns

/-- Does the character list `hay` contain `needle` as a contiguous run? -/
def hasSubCL : List Char → List Char → Bool
  | [], needle => needle.isEmpty
  | h :: t, needle => startsWithCL (h :: t) needle || hasSubCL t needle

/-- JavaScript substring containment (`String.prototype.includes`). -/
def strHasSub (hay needle : String) : Bool :=
  hasSubCL hay.data needle.data

/-! ## Request Gateway (`apiFetch`) -/

/-- The uniform result of any backend call: `{success: true, data}` or
`{success: false, error}`.  The only shape the rest of the system
branches on. -/
inductive RequestEnvelope where
  | ok (data : Json)
  | fail (error : String)

/-- The hard timeout the gateway arms via `setTimeout`/`AbortController`. -/
def TIMEOUT_MS : Nat := 10000

/-- Fallback message when no structured error can be extracted. -/
def defaultErrMsg : String := "An unexpected error occurred"

/-- Message for a gateway-enforced timeout (`AbortError`). -/
def timeoutMsg : String := "Request timed out. Backend is slow or unreachable."

/-- Message for a transport failure (connection refused/unreachable). -/
def transportMsg : String := "Cannot connect to backend. Is the server running?"

/-- Dedicated message for HTTP 404. -/
def notFoundMsg : String := "Resource not found (404)"

/-- Dedicated message for HTTP 429. -/
def rateLimitMsg : String := "Rate limit exceeded. Please wait a moment."

/-- Dedicated message for HTTP 500/502/503. -/
def serverErrMsg : String := "Server error. Please try again later."

/-- How one underlying `fetch` attempt ends: an HTTP response whose body
either parses to JSON or fails with a parse-error message, or a rejection
carrying a JavaScript error `name` and `message` (`AbortError` for the
gateway's own abort, `TypeError` with a "Failed to fetch" message for a
refused connection, ...). -/
inductive FetchResult where
  | response (status : Nat) (body : Except String Json)
  | thrown (name : String) (msg : String)

/-- The error-body extraction of `apiFetch` (inner `try`): the value of
`errorData.detail || errorData.message || errorMessage` where
`errorMessage` starts as the default; a non-JSON body, or a body on which
property access throws, is swallowed and keeps the default. -/
def extractedErrVal (body : Except String Json) : Json :=
  match body with
  | .error _ => .str defaultErrMsg
  | .ok j =>
    match j.getProp "detail" with
    | none => .str defaultErrMsg
    | some d =>
      if d.truthy then d
      else
        let m := (j.getProp "message").getD .undef
        if m.truthy then m else .str defaultErrMsg

/-- The `switch (response.status)` of `apiFetch`: dedicated wording for
404, 429 and 500/502/503, otherwise the extracted body message
(`extractedErrVal`, which the source computes just before the switch)
wrapped in an `Error: ` prefix. -/
def httpFailMsg (status : Nat) (body : Except String Json) : String :=
  if status = 404 then notFoundMsg
  else if status = 429 then rateLimitMsg
  else if status = 500 ∨ status = 502 ∨ status = 503 then serverErrMsg
  else "Error: " ++ (extractedErrVal body).jsStr

/-- The outer `catch` of `apiFetch`: an `AbortError` becomes the timeout
message, an error whose message mentions a failed fetch becomes the
transport message, anything else keeps its own message. -/
def classifyCatch (name msg : String) : String :=
  if name = "AbortError" then timeoutMsg
  else if strHasSub msg "Failed to fetch" || strHasSub msg "NetworkError" then transportMsg
  else msg

/-- HTTP methods used by the client. -/
inductive HttpMethod where
  | get
  | post

/-- The `try` block of `apiFetch`: 2xx with a parsable body succeeds; a
2xx body that fails to parse re-raises the parse error; a non-2xx status
raises `Error(httpFailMsg ...)`; a rejected fetch re-raises its own
error. -/
def apiFetchTry (r : FetchResult) : Except (String × String) Json :=
  match r with
  | .thrown name msg => .error (name, msg)
  | .response status body =>
    if 200 ≤ status ∧ status ≤ 299 then
      match body with
      | .ok d => .ok d
      | .error m => .error ("SyntaxError", m)
    else
      .error ("Error", httpFailMsg status body)

/-- The gateway entry point `apiFetch(endpoint, options)`: every outcome of the underlying fetch
is resolved to a `RequestEnvelope`; every throw is caught and
classified. The endpoint, method and request body do not influence the
envelope shape. -/
def apiFetch (endpoint : String) (method : HttpMethod) (reqBody : Option Json)
    (r : FetchResult) : RequestEnvelope :=
  match endpoint, method, reqBody, apiFetchTry r with
  | _, _, _, .ok d => .ok d
  | _, _, _, .error (name, msg) => .fail (classifyCatch name msg)

/-- How the body stream behaves after the response headers have arrived:
the `response.json()` promise either settles with a parse outcome, or
stalls forever (a connection that goes dead mid-body and is never
closed). -/
inductive BodyOutcome where
  | completes (parsed : Except String Json)
  | stalls

/-- What one underlying fetch attempt would do, absent any abort: either
the response headers arrive at `headerTime` (milliseconds from the start
of the call) with a status and a body behavior, or the transport fails
at `headerTime` with a JavaScript error. -/
inductive AttemptBehavior where
  | headers (headerTime : Nat) (status : Nat) (body : BodyOutcome)
  | failsAt (headerTime : Nat) (name msg : String)

/-- The timeout mechanism of `apiFetch`: an abort timer
(`setTimeout(() => controller.abort(), TIMEOUT_MS)`) is armed before the
fetch, and `clearTimeout(timeoutId)` runs as soon as the fetch promise
resolves — that is, when the response HEADERS arrive.  A header phase
(or transport failure) later than `TIMEOUT_MS` therefore rejects the
fetch with an `AbortError`; but once headers have arrived in time the
timer is dead and the body read is unbounded: a stalled body
(`response.json()` never settling) makes the whole call hang, modelled
by `none` — no abort fires and the attempt never settles. -/
def resolveAttempt (b : AttemptBehavior) : Option FetchResult :=
  match b with
  | .failsAt t name msg =>
    if TIMEOUT_MS < t then some (.thrown "AbortError" "signal is aborted")
    else some (.thrown name msg)
  | .headers t status body =>
    if TIMEOUT_MS < t then some (.thrown "AbortError" "signal is aborted")
    else
      match body with
      | .completes parsed => some (.response status parsed)
      | .stalls => none

/-- One whole gateway call over an underlying attempt: the envelope
`apiFetch` produces when the attempt settles, or `none` when the call
never resolves. -/
def runGatewayCall (endpoint : String) (method : HttpMethod) (reqBody : Option Json)
    (b : AttemptBehavior) : Option RequestEnvelope :=
  (resolveAttempt b).map (apiFetch endpoint method reqBody)

theorem apiFetch_of_try_ok (endpoint : String) (method : HttpMethod) (reqBody : Option Json)
    (r : FetchResult) (d : Json) (h : apiFetchTry r = Except.ok d) :
    apiFetch endpoint method reqBody r = RequestEnvelope.ok d := by
  unfold apiFetch
  rw [h]

theorem apiFetch_of_try_error (endpoint : String) (method : HttpMethod) (reqBody : Option Json)
    (r : FetchResult) (name msg : String) (h : apiFetchTry r = Except.error (name, msg)) :
    apiFetch endpoint method reqBody r = RequestEnvelope.fail (classifyCatch name msg) := by
  unfold apiFetch
  rw [h]

/-! ## Typed payloads of the application layer

After a successful gateway call the application reads fields of the
payload.  The payload shapes are the ones documented by the repository's
generated API client, so these reads are total. -/

/-- Payload of `GET /api/agents/{id}/circuit` (`CircuitBreakerState`):
the fields `refreshAgentData` reads.  `budget_limit_usd` is a decimal
string per the generated model. -/
structure CircuitStatusData where
  status : String
  budget_limit_usd : String
deriving DecidableEq, Repr

/-- Payload of `GET /api/agents/{id}/cost`: the field `refreshAgentData`
reads. -/
structure CostData where
  total_cost_usd : Rat
deriving DecidableEq, Repr

/-- Payload of `POST /api/query`: the fields `handleSend` reads in
multi-agent mode. -/
structure QueryResponseData where
  final_answer : String
  total_cost : Rat
  agents_used : List String
  routing_decision : String
deriving DecidableEq, Repr

/-- Payload of `POST /api/chat`: the fields `handleSend` reads in simple
mode. -/
structure SimpleChatResponseData where
  response : String
  cost_usd : Rat
  model_used : String
  agent_id : String
deriving DecidableEq, Repr

/-- A gateway envelope whose success payload has been given its typed
shape. -/
inductive CallResult (α : Type) where
  | ok (data : α)
  | fail (error : String)
deriving DecidableEq, Repr

/-- Did the call succeed? -/
def CallResult.isOk {α : Type} : CallResult α → Bool
  | .ok _ => true
  | .fail _ => false

/-! ## Status Aggregator (`refreshAgentData`) -/

/-- A minimal model of JavaScript `parseFloat` on the decimal strings the
backend emits for budget fields: optional sign, longest prefix of digits
with an optional fractional part; `none` models `NaN` (no leading
digits).  Exponent and special forms, which the backend never emits, are
not modelled. -/
def parseFloatJs (s : String) : Option Rat :=
  let cs := s.data
  let signAndRest : Int × List Char :=
    match cs with
    | '-' :: t => (-1, t)
    | '+' :: t => (1, t)
    | _ => (1, cs)
  let ip := signAndRest.2.takeWhile Char.isDigit
  let rest := signAndRest.2.dropWhile Char.isDigit
  let fp :=
    match rest with
    | '.' :: t => t.takeWhile Char.isDigit
    | _ => []
  if ip.isEmpty && fp.isEmpty then none
  else
    let intPart : Nat := ip.foldl (fun a c => a * 10 + (c.toNat - 48)) 0
    let fracPart : Nat := fp.foldl (fun a c => a * 10 + (c.toNat - 48)) 0
    some ((signAndRest.1 : Rat) * ((intPart : Rat) + (fracPart : Rat) / ((10 : Rat) ^ fp.length)))

/-- The per-agent merged view kept in the `agents` map of `App.jsx`. -/
structure AgentSnapshot where
  name : String
  circuitStatus : String
  budgetLimit : Option Rat
  cost : Rat
deriving DecidableEq, Repr

/-- The snapshot `refreshAgentData` builds for an identity whose pair of
calls both succeeded. -/
def mkSnapshot (id : String) (s : CircuitStatusData) (c : CostData) : AgentSnapshot :=
  { name := id
    circuitStatus := s.status
    budgetLimit := parseFloatJs s.budget_limit_usd
    cost := c.total_cost_usd }

/-- The settled outcome of the `Promise.all` pair issued for one
identity: the circuit-status envelope and the cost envelope. -/
structure AgentPollOutcome where
  statusRes : CallResult CircuitStatusData
  costRes : CallResult CostData
deriving DecidableEq, Repr

/-- Both calls of the pair succeeded. -/
def pairSucceeded (o : AgentPollOutcome) : Bool :=
  o.statusRes.isOk && o.costRes.isOk

/-- Observable events of one refresh cycle: a pair of calls is issued for
an identity, that pair settles, the merged snapshot map is published
(`setAgents`). -/
inductive RefreshEvent where
  | issuePair (id : String)
  | settlePair (id : String)
  | publish
deriving DecidableEq, Repr

/-- First-match association-list lookup, used to model reading a key of a
JavaScript object built by assignments (assignments prepend, so the first
match is the most recent assignment). -/
def optOr {α : Type} (a b : Option α) : Option α :=
  match a with
  | some x => some x
  | none => b

/-- The `for (const id of AGENT_IDS)` loop of `refreshAgentData`,
processing identities strictly in order: each iteration awaits its
identity's pair (issue then settle), and on a fully successful pair
records the fresh snapshot in `newAgentData` and bumps `successCount`.
The accumulated object is an association list in which a new assignment
is prepended, so a lookup sees the most recent assignment. -/
def refreshLoop (newAgentData : List (String × AgentSnapshot)) (successCount : Nat)
    (tr : List RefreshEvent) :
    List (String × AgentPollOutcome) →
      List (String × AgentSnapshot) × Nat × List RefreshEvent
  | [] => (newAgentData, successCount, tr)
  | (id, o) :: rest =>
    let tr' := tr ++ [RefreshEvent.issuePair id, RefreshEvent.settlePair id]
    match o.statusRes, o.costRes with
    | CallResult.ok s, CallResult.ok c =>
      refreshLoop ((id, mkSnapshot id s c) :: newAgentData) (successCount + 1) tr' rest
    | _, _ => refreshLoop newAgentData successCount tr' rest

/-- The outcome of one refresh cycle: the updated snapshot map, the
derived connectivity verdict, the number of identities whose pair fully
succeeded this cycle, and the cycle's event trace. -/
structure RefreshResult where
  agents : String → Option AgentSnapshot
  backendOnline : Bool
  successCount : Nat
  trace : List RefreshEvent

/-- The aggregator `refreshAgentData` of `App.jsx`: run the per-identity loop, then —
only when at least one pair fully succeeded — publish the overlay of the
fresh snapshots onto the previous map (`{...prev, ...newAgentData}`) and
set the backend online; otherwise leave the map untouched and set the
backend offline. -/
def refreshAgentData (prev : String → Option AgentSnapshot)
    (outs : List (String × AgentPollOutcome)) : RefreshResult :=
  if 0 < (refreshLoop [] 0 [] outs).2.1 then
    { agents := fun id => optOr ((refreshLoop [] 0 [] outs).1.lookup id) (prev id)
      backendOnline := true
      successCount := (refreshLoop [] 0 [] outs).2.1
      trace := (refreshLoop [] 0 [] outs).2.2 ++ [RefreshEvent.publish] }
  else
    { agents := prev
      backendOnline := false
      successCount := (refreshLoop [] 0 [] outs).2.1
      trace := (refreshLoop [] 0 [] outs).2.2 }

/-! ## Conversation Dispatcher (`handleSend`) -/

/-- The two request modes of the chat form. -/
inductive ChatMode where
  | multiAgent
  | simple
deriving DecidableEq, Repr

/-- Who authored a timeline entry. -/
inductive Role where
  | user
  | assistant
deriving DecidableEq, Repr

/-- One message-timeline entry.  `none` models a key that the JavaScript
message object does not carry at all. -/
structure ConversationEntry where
  role : Role
  content : String
  cost : Option Rat := none
  model_used : Option String := none
  agent_id : Option String := none
  agents_used : Option (List String) := none
  routing_decision : Option String := none
deriving DecidableEq, Repr

/-- Observable events of one `handleSend` run, in execution order.  A
`gatewayCall` records the endpoint and the serialized request payload. -/
inductive SendEvent where
  | appendMsg (e : ConversationEntry)
  | clearInput
  | setLoading (b : Bool)
  | gatewayCall (endpoint : String) (reqBody : List (String × Json))
  | refresh

/-- JavaScript `String.prototype.trim`: strip whitespace from both
ends. -/
def jsTrim (s : String) : String :=
  ⟨((s.data.dropWhile Char.isWhitespace).reverse.dropWhile Char.isWhitespace).reverse⟩

/-- Content of the assistant entry appended on a failure envelope:
`⚠️ Error: ${result.error || "Failed to get response."}`. -/
def errEntryContent (m : String) : String :=
  "⚠️ Error: " ++ (if m = "" then "Failed to get response." else m)

/-- The dispatcher `handleSend` of `App.jsx` as its event trace.  A blank trimmed input
returns before doing anything.  Otherwise: append the user entry, clear
the input, set loading, issue the one gateway call matching the mode,
append the mode-shaped assistant entry on success or the error entry on
failure, trigger one refresh, and finally clear loading.  (The
surrounding defensive `try`/`catch` of the source only fires if building
the assistant entry throws, which cannot happen for payloads of the
documented shapes modelled here.)  The call outcome for each mode is a
parameter; only the one matching the selected mode is consulted. -/
def handleSend (input : String) (mode : ChatMode) (selectedAgent : String)
    (forceAllAgents : Bool) (sRes : CallResult SimpleChatResponseData)
    (mRes : CallResult QueryResponseData) : List SendEvent :=
  let trimmed := jsTrim input
  if trimmed = "" then []
  else
    let userMsg : ConversationEntry := { role := Role.user, content := trimmed }
    let callPart : List SendEvent :=
      match mode with
      | ChatMode.simple =>
        SendEvent.gatewayCall "/api/chat"
            [("query", Json.str trimmed), ("agent_id", Json.str selectedAgent)] ::
          (match sRes with
           | CallResult.ok d =>
             [SendEvent.appendMsg
                { role := Role.assistant
                  content := d.response
                  cost := some d.cost_usd
                  model_used := some d.model_used
                  agent_id := some d.agent_id },
              SendEvent.refresh]
           | CallResult.fail m =>
             [SendEvent.appendMsg { role := Role.assistant, content := errEntryContent m },
              SendEvent.refresh])
      | ChatMode.multiAgent =>
        SendEvent.gatewayCall "/api/query"
            [("query", Json.str trimmed), ("agent_id", Json.str "user_agent"),
             ("force_all_agents", Json.bool forceAllAgents)] ::
          (match mRes with
           | CallResult.ok d =>
             [SendEvent.appendMsg
                { role := Role.assistant
                  content := d.final_answer
                  cost := some d.total_cost
                  agents_used := some d.agents_used
                  routing_decision := some d.routing_decision },
              SendEvent.refresh]
           | CallResult.fail m =>
             [SendEvent.appendMsg { role := Role.assistant, content := errEntryContent m },
              SendEvent.refresh])
    [SendEvent.appendMsg userMsg, SendEvent.clearInput, SendEvent.setLoading true]
      ++ callPart ++ [SendEvent.setLoading false]

/-- The component state a `handleSend` run can touch. -/
structure AppState where
  input : String
  messages : List ConversationEntry
  loading : Bool
deriving DecidableEq, Repr

/-- Apply one send event to the component state. -/
def applyEvent (s : AppState) (e : SendEvent) : AppState :=
  match e with
  | SendEvent.appendMsg m => { s with messages := s.messages ++ [m] }
  | SendEvent.clearInput => { s with input := "" }
  | SendEvent.setLoading b => { s with loading := b }
  | SendEvent.gatewayCall _ _ => s
  | SendEvent.refresh => s

/-- Number of refresh events in a trace. -/
def countRefresh (tr : List SendEvent) : Nat :=
  (tr.filter fun e =>
    match e with
    | SendEvent.refresh => true
    | _ => false).length

/-- Number of gateway calls in a trace. -/
def countGatewayCalls (tr : List SendEvent) : Nat :=
  (tr.filter fun e =>
    match e with
    | SendEvent.gatewayCall _ _ => true
    | _ => false).length

/-- Apply a whole event trace to the component state. -/
def applyTrace (tr : List SendEvent) (s : AppState) : AppState :=
  tr.foldl applyEvent s

/-- The assistant entries appended by a trace, in order. -/
def assistantEntries (tr : List SendEvent) : List ConversationEntry :=
  tr.filterMap fun e =>
    match e with
    | SendEvent.appendMsg m => if m.role = Role.assistant then some m else none
    | _ => none

/-! ## 3D mesh polling loop (`fetchStates` in `CircuitMesh3D`) -/

/-- The JavaScript object `apiFetch` actually returns: `success` and
`data` on success, `success` and `error` on failure. -/
def envelopeToJsObj : RequestEnvelope → Json
  | .ok d => .obj [("success", .bool true), ("data", d)]
  | .fail m => .obj [("success", .bool false), ("error", .str m)]

/-- JavaScript `a || b`. -/
def jsOr (a b : Json) : Json :=
  if a.truthy then a else b

/-- The per-agent record the 3D view derives each poll. -/
structure MeshAgentView where
  id : String
  status : Json
  failureCount : Json

/-- One agent's entry in `fetchStates`: the envelope returned by
`api.getAgentStatus(id)` is read at its top level —
`status.status` and `status.failure_count || 0`. -/
def meshEntryOf (id : String) (env : RequestEnvelope) : MeshAgentView :=
  let statusObj := envelopeToJsObj env
  { id := id
    status := (statusObj.getProp "status").getD .undef
    failureCount := jsOr ((statusObj.getProp "failure_count").getD .undef) (.num 0) }

/-- The body of the 2,000 ms polling loop: map every tracked identity to
its derived record, given each identity's underlying fetch outcome. -/
def fetchStates (fetchOf : String → FetchResult) (ids : List String) : List MeshAgentView :=
  ids.map fun id =>
    meshEntryOf id (apiFetch ("/api/agents/" ++ id ++ "/circuit") HttpMethod.get none (fetchOf id))

/-- Is a JavaScript value `undefined`? -/
def isUndef : Json → Bool
  | .undef => true
  | _ => false

/-- Is a JavaScript value the number `0`? -/
def isNumZero : Json → Bool
  | .num n => n == 0
  | _ => false

/-! ## Association-list lemmas -/

theorem optOr_assoc {α : Type} (a b c : Option α) :
    optOr (optOr a b) c = optOr a (optOr b c) := by
  cases a <;> simp [optOr]

theorem lookup_eq_none_of_not_mem {α : Type} (l : List (String × α)) (k : String)
    (h : k ∉ l.map Prod.fst) : l.lookup k = none := by
  induction l with
  | nil => rfl
  | cons hd tl ih =>
    obtain ⟨a, b⟩ := hd
    simp only [List.map_cons, List.mem_cons, not_or] at h
    have hb : (k == a) = false := beq_eq_false_iff_ne.mpr h.1
    simp [List.lookup, hb, ih h.2]

theorem lookup_append {α : Type} (l₁ l₂ : List (String × α)) (k : String) :
    (l₁ ++ l₂).lookup k = optOr (l₁.lookup k) (l₂.lookup k) := by
  induction l₁ with
  | nil => simp [List.lookup, optOr]
  | cons hd tl ih =>
    obtain ⟨a, b⟩ := hd
    cases hb : (k == a) with
    | true => simp [List.lookup, hb, optOr]
    | false => simp [List.lookup, hb, ih]

theorem lookup_eq_some_of_mem_nodup {α : Type} (l : List (String × α)) (k : String) (v : α)
    (hmem : (k, v) ∈ l) (hnd : (l.map Prod.fst).Nodup) : l.lookup k = some v := by
  induction l with
  | nil => cases hmem
  | cons hd tl ih =>
    obtain ⟨a, b⟩ := hd
    simp only [List.map_cons, List.nodup_cons] at hnd
    rcases List.mem_cons.mp hmem with heq | htl
    · cases heq
      simp [List.lookup]
    · have hak : k ≠ a := by
        intro h
        exact hnd.1 (h ▸ List.mem_map_of_mem Prod.fst htl)
      have hb : (k == a) = false := beq_eq_false_iff_ne.mpr hak
      simp [List.lookup, hb, ih htl hnd.2]

/-! ## Characterizing the refresh loop -/

/-- The fresh snapshots produced by a cycle, in identity order: one entry
per fully successful pair. -/
def freshList : List (String × AgentPollOutcome) → List (String × AgentSnapshot)
  | [] => []
  | (id, o) :: rest =>
    match o.statusRes, o.costRes with
    | CallResult.ok s, CallResult.ok c => (id, mkSnapshot id s c) :: freshList rest
    | _, _ => freshList rest

theorem refreshLoop_successCount (outs : List (String × AgentPollOutcome))
    (nd : List (String × AgentSnapshot)) (sc : Nat) (tr : List RefreshEvent) :
    (refreshLoop nd sc tr outs).2.1
      = sc + (outs.filter fun p => pairSucceeded p.2).length := by
  induction outs generalizing nd sc tr with
  | nil => simp [refreshLoop]
  | cons hd tl ih =>
    obtain ⟨id, o⟩ := hd
    obtain ⟨st, ct⟩ := o
    cases st <;> cases ct <;>
      simp [refreshLoop, pairSucceeded, CallResult.isOk, ih] <;> omega

theorem refreshLoop_trace (outs : List (String × AgentPollOutcome))
    (nd : List (String × AgentSnapshot)) (sc : Nat) (tr : List RefreshEvent) :
    (refreshLoop nd sc tr outs).2.2
      = tr ++ outs.flatMap fun p => [RefreshEvent.issuePair p.1, RefreshEvent.settlePair p.1] := by
  induction outs generalizing nd sc tr with
  | nil => simp [refreshLoop]
  | cons hd tl ih =>
    obtain ⟨id, o⟩ := hd
    obtain ⟨st, ct⟩ := o
    cases st <;> cases ct <;> simp [refreshLoop, ih]

theorem refreshLoop_lookup (outs : List (String × AgentPollOutcome))
    (nd : List (String × AgentSnapshot)) (sc : Nat) (tr : List RefreshEvent) (k : String) :
    (refreshLoop nd sc tr outs).1.lookup k
      = optOr ((freshList outs).reverse.lookup k) (nd.lookup k) := by
  induction outs generalizing nd sc tr with
  | nil => simp [refreshLoop, freshList, optOr]
  | cons hd tl ih =>
    obtain ⟨id, o⟩ := hd
    obtain ⟨st, ct⟩ := o
    cases st with
    | ok s =>
      cases ct with
      | ok c =>
        simp only [refreshLoop, freshList]
        rw [ih, List.reverse_cons, lookup_append, optOr_assoc]
        congr 1
        cases hb : (k == id) with
        | true => simp [List.lookup, hb, optOr]
        | false => simp [List.lookup, hb, optOr]
      | fail m =>
        simp only [refreshLoop, freshList]
        exact ih _ _ _
    | fail m =>
      cases ct <;>
        · simp only [refreshLoop, freshList]
          exact ih _ _ _

theorem freshList_keys_sublist (outs : List (String × AgentPollOutcome)) :
    List.Sublist ((freshList outs).map Prod.fst) (outs.map Prod.fst) := by
  induction outs with
  | nil => simp [freshList]
  | cons hd tl ih =>
    obtain ⟨id, o⟩ := hd
    obtain ⟨st, ct⟩ := o
    cases st <;> cases ct <;> simp only [freshList, List.map_cons] <;>
      first
        | exact List.Sublist.cons₂ _ ih
        | exact List.Sublist.cons _ ih

theorem mem_freshList_of_success {outs : List (String × AgentPollOutcome)}
    {p : String × AgentPollOutcome} (hp : p ∈ outs) {s : CircuitStatusData} {c : CostData}
    (h1 : p.2.statusRes = CallResult.ok s) (h2 : p.2.costRes = CallResult.ok c) :
    (p.1, mkSnapshot p.1 s c) ∈ freshList outs := by
  induction outs with
  | nil => cases hp
  | cons hd tl ih =>
    rcases List.mem_cons.mp hp with heq | htl
    · subst heq
      obtain ⟨id, o⟩ := p
      simp only at h1 h2
      simp [freshList, h1, h2]
    · obtain ⟨id, o⟩ := hd
      obtain ⟨st, ct⟩ := o
      cases st <;> cases ct <;> simp only [freshList] <;>
        first
          | exact List.mem_cons_of_mem _ (ih htl)
          | exact ih htl

theorem freshList_key_of_mem {outs : List (String × AgentPollOutcome)} {k : String}
    (h : k ∈ (freshList outs).map Prod.fst) :
    ∃ q ∈ outs, q.1 = k ∧ pairSucceeded q.2 = true := by
  induction outs with
  | nil => simp [freshList] at h
  | cons hd tl ih =>
    obtain ⟨id, o⟩ := hd
    obtain ⟨st, ct⟩ := o
    cases st with
    | ok s =>
      cases ct with
      | ok c =>
        simp only [freshList, List.map_cons, List.mem_cons] at h
        rcases h with rfl | h
        · exact ⟨(k, ⟨CallResult.ok s, CallResult.ok c⟩), List.mem_cons_self .., rfl, rfl⟩
        · obtain ⟨q, hq, hqk, hqs⟩ := ih h
          exact ⟨q, List.mem_cons_of_mem _ hq, hqk, hqs⟩
      | fail m =>
        obtain ⟨q, hq, hqk, hqs⟩ := ih h
        exact ⟨q, List.mem_cons_of_mem _ hq, hqk, hqs⟩
    | fail m =>
      cases ct <;>
        · obtain ⟨q, hq, hqk, hqs⟩ := ih h
          exact ⟨q, List.mem_cons_of_mem _ hq, hqk, hqs⟩

theorem refresh_successCount_eq (prev : String → Option AgentSnapshot)
    (outs : List (String × AgentPollOutcome)) :
    (refreshAgentData prev outs).successCount
      = (outs.filter fun p => pairSucceeded p.2).length := by
  unfold refreshAgentData
  split <;> simpa using refreshLoop_successCount outs [] 0 []

theorem refresh_agents_eq (prev : String → Option AgentSnapshot)
    (outs : List (String × AgentPollOutcome)) (k : String)
    (h : 0 < (refreshLoop [] 0 [] outs).2.1) :
    (refreshAgentData prev outs).agents k
      = optOr ((freshList outs).reverse.lookup k) (prev k) := by
  unfold refreshAgentData
  rw [if_pos h]
  simp only
  rw [refreshLoop_lookup]
  cases (freshList outs).reverse.lookup k <;> simp [optOr, List.lookup]

theorem freshList_reverse_keys_nodup {outs : List (String × AgentPollOutcome)}
    (hkeys : (outs.map Prod.fst).Nodup) :
    ((freshList outs).reverse.map Prod.fst).Nodup := by
  rw [List.map_reverse, List.nodup_reverse]
  exact (freshList_keys_sublist outs).nodup hkeys

/-- Claim C1: in a refresh cycle over tracked identities with distinct
keys, the snapshot map ends up with a fresh entry for exactly the
identities whose circuit+cost pair both succeeded (and `successCount`
counts exactly those); an identity with a partial or failed pair keeps
its previous snapshot, and every key outside the tracked list is left
untouched — the successes are overlaid onto the previous map, never a
wholesale replacement. -/
theorem refresh_snapshot_overlay (prev : String → Option AgentSnapshot)
    (outs : List (String × AgentPollOutcome)) (hkeys : (outs.map Prod.fst).Nodup) :
    (refreshAgentData prev outs).successCount
        = (outs.filter fun p => pairSucceeded p.2).length
    ∧ (∀ p ∈ outs, ∀ s c, p.2.statusRes = CallResult.ok s → p.2.costRes = CallResult.ok c →
        (refreshAgentData prev outs).agents p.1 = some (mkSnapshot p.1 s c))
    ∧ (∀ p ∈ outs, pairSucceeded p.2 = false →
        (refreshAgentData prev outs).agents p.1 = prev p.1)
    ∧ ∀ id, id ∉ outs.map Prod.fst → (refreshAgentData prev outs).agents id = prev id := by
  have hc := refreshLoop_successCount outs [] 0 []
  refine ⟨refresh_successCount_eq prev outs, ?_, ?_, ?_⟩
  · intro p hp s c h1 h2
    have hmemf : p ∈ outs.filter fun q => pairSucceeded q.2 := by
      refine List.mem_filter.mpr ⟨hp, ?_⟩
      simp [pairSucceeded, h1, h2, CallResult.isOk]
    have hlen : 0 < (outs.filter fun q => pairSucceeded q.2).length :=
      List.length_pos.mpr (List.ne_nil_of_mem hmemf)
    have hpos : 0 < (refreshLoop [] 0 [] outs).2.1 := by omega
    rw [refresh_agents_eq prev outs p.1 hpos]
    rw [lookup_eq_some_of_mem_nodup _ _ _
          (List.mem_reverse.mpr (mem_freshList_of_success hp h1 h2))
          (freshList_reverse_keys_nodup hkeys)]
    rfl
  · intro p hp hfail
    by_cases hpos : 0 < (refreshLoop [] 0 [] outs).2.1
    · rw [refresh_agents_eq prev outs p.1 hpos]
      have hnot : p.1 ∉ (freshList outs).reverse.map Prod.fst := by
        rw [List.map_reverse, List.mem_reverse]
        intro hmem
        obtain ⟨q, hq, hqk, hqs⟩ := freshList_key_of_mem hmem
        have : q = p := List.inj_on_of_nodup_map hkeys hq hp hqk
        rw [this] at hqs
        rw [hqs] at hfail
        cases hfail
      rw [lookup_eq_none_of_not_mem _ _ hnot]
      rfl
    · unfold refreshAgentData
      rw [if_neg hpos]
  · intro id hid
    by_cases hpos : 0 < (refreshLoop [] 0 [] outs).2.1
    · rw [refresh_agents_eq prev outs id hpos]
      have hnot : id ∉ (freshList outs).reverse.map Prod.fst := by
        rw [List.map_reverse, List.mem_reverse]
        intro hmem
        exact hid ((freshList_keys_sublist outs).subset hmem)
      rw [lookup_eq_none_of_not_mem _ _ hnot]
      rfl
    · unfold refreshAgentData
      rw [if_neg hpos]

/-- Previous snapshot map used by the C1 witness: only `researcher` is
known. -/
def c1Prev : String → Option AgentSnapshot := fun id =>
  if id = "researcher" then
    some { name := "researcher", circuitStatus := "closed", budgetLimit := some 5, cost := 1 }
  else none

/-- Cycle outcomes used by the C1 witness: `coordinator` and `coder`
succeed both calls, `researcher` fails its circuit call. -/
def c1Outs : List (String × AgentPollOutcome) :=
  [("coordinator",
    { statusRes := CallResult.ok { status := "closed", budget_limit_usd := "5.0" }
      costRes := CallResult.ok { total_cost_usd := 2 } }),
   ("researcher",
    { statusRes := CallResult.fail "Resource not found (404)"
      costRes := CallResult.ok { total_cost_usd := 0 } }),
   ("coder",
    { statusRes := CallResult.ok { status := "open", budget_limit_usd := "2.5" }
      costRes := CallResult.ok { total_cost_usd := 1 } })]

theorem refresh_snapshot_overlay_witness :
    ((c1Outs.map Prod.fst).Nodup)
    ∧ (refreshAgentData c1Prev c1Outs).successCount = 2
    ∧ (refreshAgentData c1Prev c1Outs).agents "coordinator"
        = some (mkSnapshot "coordinator" { status := "closed", budget_limit_usd := "5.0" }
            { total_cost_usd := 2 })
    ∧ (refreshAgentData c1Prev c1Outs).agents "researcher" = c1Prev "researcher"
    ∧ (refreshAgentData c1Prev c1Outs).agents "missing" = c1Prev "missing" := by
  have h := refresh_snapshot_overlay c1Prev c1Outs (by decide)
  refine ⟨by decide, ?_, ?_, ?_, ?_⟩
  · rw [h.1]
    decide
  · exact h.2.1 ("coordinator",
      { statusRes := CallResult.ok { status := "closed", budget_limit_usd := "5.0" }
        costRes := CallResult.ok { total_cost_usd := 2 } }) (by decide) _ _ rfl rfl
  · exact h.2.2.1 ("researcher",
      { statusRes := CallResult.fail "Resource not found (404)"
        costRes := CallResult.ok { total_cost_usd := 0 } }) (by decide) (by decide)
  · exact h.2.2.2 "missing" (by decide)

/-- Claim C2: after a refresh cycle over at least one tracked identity,
`backendOnline` is true exactly when at least one identity's circuit+cost
pair fully succeeded this cycle, and false when all failed. -/
theorem refresh_backendOnline_iff (prev : String → Option AgentSnapshot)
    (outs : List (String × AgentPollOutcome)) (hN : outs ≠ []) :
    ((refreshAgentData prev outs).backendOnline = true
      ↔ 1 ≤ (outs.filter fun p => pairSucceeded p.2).length) := by
  have hc := refreshLoop_successCount outs [] 0 []
  unfold refreshAgentData
  by_cases h : 0 < (refreshLoop [] 0 [] outs).2.1
  · rw [if_pos h]
    simp only [true_iff]
    omega
  · rw [if_neg h]
    simp only [Bool.false_eq_true, false_iff]
    omega

/-- Cycle outcomes used by the C2 witness: a single identity whose pair
succeeds. -/
def c2Outs : List (String × AgentPollOutcome) :=
  [("coordinator",
    { statusRes := CallResult.ok { status := "closed", budget_limit_usd := "5.0" }
      costRes := CallResult.ok { total_cost_usd := 1 } })]

theorem refresh_backendOnline_iff_witness :
    c2Outs ≠ [] ∧ (refreshAgentData (fun _ => none) c2Outs).backendOnline = true :=
  ⟨by decide, (refresh_backendOnline_iff (fun _ => none) c2Outs (by decide)).mpr (by decide)⟩

/-- Does a trace contain a pair-issue event? -/
def containsIssue (tr : List RefreshEvent) : Bool :=
  tr.any fun e =>
    match e with
    | RefreshEvent.issuePair _ => true
    | _ => false

/-- Does a trace issue all pairs before any pair settles (parallel
fan-out across identities)?  True iff no issue event follows a settle
event. -/
def fanOutShape : List RefreshEvent → Bool
  | [] => true
  | RefreshEvent.settlePair _ :: rest => !containsIssue rest && fanOutShape rest
  | _ :: rest => fanOutShape rest

/-- Claim C3, amended: within one refresh the per-identity pairs are
processed strictly in sequence — each identity's pair is issued and
settles before the next identity's pair is issued (only the two calls
inside one pair run concurrently) — and the refresh still completes only
after every pair has settled: the snapshot publish, present exactly when
some pair succeeded, is the single final event, never mid-cycle. -/
theorem refresh_pairs_sequential_trace (prev : String → Option AgentSnapshot)
    (outs : List (String × AgentPollOutcome)) :
    (refreshAgentData prev outs).trace
      = (outs.flatMap fun p => [RefreshEvent.issuePair p.1, RefreshEvent.settlePair p.1])
        ++ (if 1 ≤ (outs.filter fun p => pairSucceeded p.2).length
            then [RefreshEvent.publish] else []) := by
  have hc := refreshLoop_successCount outs [] 0 []
  have ht := refreshLoop_trace outs [] 0 []
  unfold refreshAgentData
  by_cases h : 0 < (refreshLoop [] 0 [] outs).2.1
  · rw [if_pos h]
    simp only
    rw [ht, if_pos (by omega)]
    simp
  · rw [if_neg h]
    simp only
    rw [ht, if_neg (by omega)]
    simp

/-- Claim C3, counterexample to the claim as stated: with two tracked
identities the refresh trace interleaves issue and settle per identity —
the second pair is issued only after the first has settled — so the pairs
are not all issued up front as a parallel fan-out across identities. -/
theorem refresh_fanout_counterexample :
    (refreshAgentData (fun _ => none)
        [("coordinator",
          { statusRes := CallResult.ok { status := "closed", budget_limit_usd := "5.0" }
            costRes := CallResult.ok { total_cost_usd := 1 } }),
         ("researcher",
          { statusRes := CallResult.ok { status := "closed", budget_limit_usd := "5.0" }
            costRes := CallResult.ok { total_cost_usd := 2 } })]).trace
      = [RefreshEvent.issuePair "coordinator", RefreshEvent.settlePair "coordinator",
         RefreshEvent.issuePair "researcher", RefreshEvent.settlePair "researcher",
         RefreshEvent.publish]
    ∧ fanOutShape (refreshAgentData (fun _ => none)
        [("coordinator",
          { statusRes := CallResult.ok { status := "closed", budget_limit_usd := "5.0" }
            costRes := CallResult.ok { total_cost_usd := 1 } }),
         ("researcher",
          { statusRes := CallResult.ok { status := "closed", budget_limit_usd := "5.0" }
            costRes := CallResult.ok { total_cost_usd := 2 } })]).trace = false := by
  constructor
  · decide
  · decide

/-! ## Gateway theorems -/

/-- Claim C4: every Request Gateway call resolves to a `RequestEnvelope`
— `{success: true, data}` or `{success: false, error}` — for every
endpoint, method, request body, and every outcome of the underlying
fetch (2xx with any body, non-2xx, transport failure, timeout): the
gateway never lets a throw escape, so callers need no exception
recovery. -/
theorem gateway_always_envelope (endpoint : String) (method : HttpMethod)
    (reqBody : Option Json) (r : FetchResult) :
    (∃ d, apiFetch endpoint method reqBody r = RequestEnvelope.ok d)
    ∨ ∃ m, apiFetch endpoint method reqBody r = RequestEnvelope.fail m := by
  cases h : apiFetchTry r with
  | ok d => exact Or.inl ⟨d, apiFetch_of_try_ok endpoint method reqBody r d h⟩
  | error p =>
    obtain ⟨name, msg⟩ := p
    exact Or.inr ⟨classifyCatch name msg,
      apiFetch_of_try_error endpoint method reqBody r name msg h⟩

theorem errWrap_ne_timeoutMsg (s : String) : "Error: " ++ s ≠ timeoutMsg := by
  intro h
  have h2 : ("Error: " ++ s).data = timeoutMsg.data := congrArg String.data h
  have h3 : ("Error: " ++ s).data = 'E' :: ("rror: " ++ s).data := rfl
  have h4 : timeoutMsg.data
      = 'R' :: "equest timed out. Backend is slow or unreachable.".data := rfl
  rw [h3, h4] at h2
  injection h2 with h5 h6
  exact absurd h5 (by decide)

theorem httpFailMsg_ne_timeoutMsg (status : Nat) (body : Except String Json) :
    httpFailMsg status body ≠ timeoutMsg := by
  unfold httpFailMsg
  split_ifs with h1 h2 h3
  · decide
  · decide
  · decide
  · exact errWrap_ne_timeoutMsg _

theorem classifyCatch_ne_timeoutMsg (msg : String) (hname : msg ≠ timeoutMsg) :
    classifyCatch "Error" msg ≠ timeoutMsg := by
  unfold classifyCatch
  rw [if_neg (by decide : ¬("Error" = "AbortError"))]
  split_ifs with h
  · decide
  · exact hname

theorem apiFetch_abortError (endpoint : String) (method : HttpMethod)
    (reqBody : Option Json) :
    apiFetch endpoint method reqBody (FetchResult.thrown "AbortError" "signal is aborted")
      = RequestEnvelope.fail timeoutMsg := by
  have htry : apiFetchTry (FetchResult.thrown "AbortError" "signal is aborted")
      = Except.error ("AbortError", "signal is aborted") := rfl
  rw [apiFetch_of_try_error endpoint method reqBody _ _ _ htry]
  rfl

/-- Claim C5, counterexample to the claim as stated: an attempt whose
response headers arrive immediately (here at 0 ms, status 200) but whose
body stream then stalls is a gateway call that does not resolve within
the configured timeout — it never resolves at all — yet nothing is
aborted when the timeout elapses and no envelope, in particular no
timeout-classified failure envelope, is ever produced: the source clears
the abort timer the moment the fetch promise (the headers) resolves,
leaving `response.json()` unbounded. -/
theorem timeout_stalled_body_counterexample :
    resolveAttempt (AttemptBehavior.headers 0 200 BodyOutcome.stalls) = none
    ∧ runGatewayCall "/api/agents/coordinator/circuit" HttpMethod.get none
        (AttemptBehavior.headers 0 200 BodyOutcome.stalls) = none := by
  exact ⟨rfl, rfl⟩

/-- Claim C5, amended: the configured timeout (default 10,000 ms)
governs only the header phase of a gateway call.  An attempt whose
response headers — or whose transport failure — would arrive only after
the timeout is aborted when the timeout elapses (`AbortError`) and
settles as the dedicated timeout failure envelope, whose message is
distinct from the transport-failure message and from every message a
non-2xx HTTP response can produce.  Once headers have arrived within the
deadline the abort timer is cleared, so a body read that then stalls is
never aborted and the call never resolves at all. -/
theorem timeout_header_phase_only (endpoint : String) (method : HttpMethod)
    (reqBody : Option Json) (t status : Nat) (body : BodyOutcome) (name msg : String)
    (h : TIMEOUT_MS < t) :
    runGatewayCall endpoint method reqBody (AttemptBehavior.headers t status body)
        = some (RequestEnvelope.fail timeoutMsg)
    ∧ resolveAttempt (AttemptBehavior.headers t status body)
        = some (FetchResult.thrown "AbortError" "signal is aborted")
    ∧ runGatewayCall endpoint method reqBody (AttemptBehavior.failsAt t name msg)
        = some (RequestEnvelope.fail timeoutMsg)
    ∧ (∀ t2, ¬(TIMEOUT_MS < t2) →
        runGatewayCall endpoint method reqBody
          (AttemptBehavior.headers t2 status BodyOutcome.stalls) = none)
    ∧ timeoutMsg ≠ transportMsg
    ∧ ∀ st b2, ¬(200 ≤ st ∧ st ≤ 299) →
        apiFetch endpoint method reqBody (FetchResult.response st b2)
          ≠ RequestEnvelope.fail timeoutMsg := by
  have habort : resolveAttempt (AttemptBehavior.headers t status body)
      = some (FetchResult.thrown "AbortError" "signal is aborted") := by
    simp only [resolveAttempt]
    rw [if_pos h]
  have habort2 : resolveAttempt (AttemptBehavior.failsAt t name msg)
      = some (FetchResult.thrown "AbortError" "signal is aborted") := by
    simp only [resolveAttempt]
    rw [if_pos h]
  refine ⟨?_, habort, ?_, ?_, by decide, ?_⟩
  · unfold runGatewayCall
    rw [habort]
    simp only [Option.map]
    rw [apiFetch_abortError]
  · unfold runGatewayCall
    rw [habort2]
    simp only [Option.map]
    rw [apiFetch_abortError]
  · intro t2 h2
    unfold runGatewayCall
    simp only [resolveAttempt]
    rw [if_neg h2]
    rfl
  · intro st b2 hst hcontra
    have htry : apiFetchTry (FetchResult.response st b2)
        = Except.error ("Error", httpFailMsg st b2) := by
      simp only [apiFetchTry]
      rw [if_neg hst]
    rw [apiFetch_of_try_error endpoint method reqBody _ _ _ htry] at hcontra
    have hmsg : classifyCatch "Error" (httpFailMsg st b2) = timeoutMsg := by
      injection hcontra
    exact classifyCatch_ne_timeoutMsg _ (httpFailMsg_ne_timeoutMsg st b2) hmsg

theorem timeout_header_phase_only_witness :
    TIMEOUT_MS < 10001
    ∧ runGatewayCall "/api/agents/coordinator/circuit" HttpMethod.get none
        (AttemptBehavior.headers 10001 200 (BodyOutcome.completes (Except.ok Json.null)))
        = some (RequestEnvelope.fail timeoutMsg)
    ∧ runGatewayCall "/api/agents/coordinator/circuit" HttpMethod.get none
        (AttemptBehavior.headers 5 200 BodyOutcome.stalls) = none
    ∧ apiFetch "/api/agents/coordinator/circuit" HttpMethod.get none
        (FetchResult.response 503 (Except.ok Json.null))
        ≠ RequestEnvelope.fail timeoutMsg := by
  have h := timeout_header_phase_only "/api/agents/coordinator/circuit" HttpMethod.get none
    10001 200 (BodyOutcome.completes (Except.ok Json.null)) "TypeError" "Failed to fetch"
    (by decide)
  exact ⟨by decide, h.1, h.2.2.2.1 5 (by decide),
    h.2.2.2.2.2 503 (Except.ok Json.null) (by decide)⟩

/-- Claim C6, counterexample to the claim as stated: a 404 whose body
carries a parsable `detail` field does not surface that field — the
dedicated status message overrides it — and a 5xx status outside
{500, 502, 503} (here 504) does not get the server-error wording but the
generic `Error:` wrapper. -/
theorem http_error_message_counterexample :
    apiFetch "/api/agents/coordinator/circuit" HttpMethod.get none
        (FetchResult.response 404
          (Except.ok (Json.obj [("detail", Json.str "agent not registered")])))
      = RequestEnvelope.fail "Resource not found (404)"
    ∧ ("Resource not found (404)" : String) ≠ "agent not registered"
    ∧ apiFetch "/api/agents/coordinator/circuit" HttpMethod.get none
        (FetchResult.response 504 (Except.ok (Json.obj [])))
      = RequestEnvelope.fail "Error: An unexpected error occurred"
    ∧ ("Error: An unexpected error occurred" : String) ≠ serverErrMsg := by
  refine ⟨rfl, by decide, ?_, by decide⟩
  have htry : apiFetchTry (FetchResult.response 504 (Except.ok (Json.obj [])))
      = Except.error ("Error", httpFailMsg 504 (Except.ok (Json.obj []))) := by
    simp only [apiFetchTry]
    rw [if_neg (by decide)]
  rw [apiFetch_of_try_error _ _ _ _ _ _ htry]
  have hmsg : httpFailMsg 504 (Except.ok (Json.obj []))
      = "Error: An unexpected error occurred" := by
    unfold httpFailMsg
    rw [if_neg (by decide), if_neg (by decide), if_neg (by decide)]
    have hev : extractedErrVal (Except.ok (Json.obj [])) = Json.str defaultErrMsg := rfl
    rw [hev]
    simp [Json.jsStr, defaultErrMsg]
  rw [hmsg]
  rfl

theorem strHasSub_errWrap_fetch (s : String) :
    strHasSub ("Error: " ++ s) "Failed to fetch" = strHasSub s "Failed to fetch" := rfl

theorem strHasSub_errWrap_net (s : String) :
    strHasSub ("Error: " ++ s) "NetworkError" = strHasSub s "NetworkError" := rfl

/-- Claim C6, amended: for a non-2xx response the failure message is the
dedicated wording for 404, for 429, and for exactly the statuses 500, 502
and 503 — overriding any `detail`/`message` field the body carries — and
for every other status it is `Error: <m>`, where `m` is the body's
truthy `detail` (else `message`) field when the body parses, and the
generic default otherwise (provided the wrapped message does not itself
mention a failed fetch, in which case the outer catch reclassifies it as
a transport failure). -/
theorem http_error_messages (endpoint : String) (method : HttpMethod) (reqBody : Option Json)
    (status : Nat) (body : Except String Json) (hNonOk : ¬(200 ≤ status ∧ status ≤ 299)) :
    (status = 404 → apiFetch endpoint method reqBody (FetchResult.response status body)
        = RequestEnvelope.fail notFoundMsg)
    ∧ (status = 429 → apiFetch endpoint method reqBody (FetchResult.response status body)
        = RequestEnvelope.fail rateLimitMsg)
    ∧ (status = 500 ∨ status = 502 ∨ status = 503 →
        apiFetch endpoint method reqBody (FetchResult.response status body)
          = RequestEnvelope.fail serverErrMsg)
    ∧ (status ≠ 404 → status ≠ 429 → status ≠ 500 → status ≠ 502 → status ≠ 503 →
        strHasSub ((extractedErrVal body).jsStr) "Failed to fetch" = false →
        strHasSub ((extractedErrVal body).jsStr) "NetworkError" = false →
        apiFetch endpoint method reqBody (FetchResult.response status body)
          = RequestEnvelope.fail ("Error: " ++ (extractedErrVal body).jsStr)) := by
  have htry : apiFetchTry (FetchResult.response status body)
      = Except.error ("Error", httpFailMsg status body) := by
    simp only [apiFetchTry]
    rw [if_neg hNonOk]
  have hfetch := apiFetch_of_try_error endpoint method reqBody _ _ _ htry
  refine ⟨?_, ?_, ?_, ?_⟩
  · intro h404
    subst h404
    rw [hfetch]
    have hmsg : httpFailMsg 404 body = notFoundMsg := by
      unfold httpFailMsg
      rw [if_pos rfl]
    rw [hmsg, show classifyCatch "Error" notFoundMsg = notFoundMsg from by decide]
  · intro h429
    subst h429
    rw [hfetch]
    have hmsg : httpFailMsg 429 body = rateLimitMsg := by
      unfold httpFailMsg
      rw [if_neg (by decide), if_pos rfl]
    rw [hmsg, show classifyCatch "Error" rateLimitMsg = rateLimitMsg from by decide]
  · intro h5xx
    have hmsg : httpFailMsg status body = serverErrMsg := by
      unfold httpFailMsg
      rcases h5xx with rfl | rfl | rfl <;>
        rw [if_neg (by decide), if_neg (by decide), if_pos (by tauto)]
    rw [hfetch, hmsg, show classifyCatch "Error" serverErrMsg = serverErrMsg from by decide]
  · intro h404 h429 h500 h502 h503 hf hn
    have hmsg : httpFailMsg status body = "Error: " ++ (extractedErrVal body).jsStr := by
      unfold httpFailMsg
      rw [if_neg h404, if_neg h429, if_neg (by tauto)]
    rw [hfetch, hmsg]
    unfold classifyCatch
    rw [if_neg (by decide : ¬("Error" = "AbortError"))]
    rw [strHasSub_errWrap_fetch, strHasSub_errWrap_net, hf, hn]
    rfl

theorem http_error_messages_witness :
    ¬(200 ≤ 418 ∧ 418 ≤ 299)
    ∧ apiFetch "/health" HttpMethod.get none
        (FetchResult.response 418 (Except.ok (Json.obj [("detail", Json.str "teapot")])))
        = RequestEnvelope.fail
            ("Error: " ++ (extractedErrVal
              (Except.ok (Json.obj [("detail", Json.str "teapot")]))).jsStr)
    ∧ apiFetch "/health" HttpMethod.get none
        (FetchResult.response 404 (Except.ok (Json.obj [("detail", Json.str "teapot")])))
        = RequestEnvelope.fail notFoundMsg := by
  have h := http_error_messages "/health" HttpMethod.get none 418
    (Except.ok (Json.obj [("detail", Json.str "teapot")])) (by decide)
  have h404 := http_error_messages "/health" HttpMethod.get none 404
    (Except.ok (Json.obj [("detail", Json.str "teapot")])) (by decide)
  have hev : extractedErrVal (Except.ok (Json.obj [("detail", Json.str "teapot")]))
      = Json.str "teapot" := rfl
  have hjs : (Json.str "teapot").jsStr = "teapot" := by simp [Json.jsStr]
  exact ⟨by decide,
    h.2.2.2 (by decide) (by decide) (by decide) (by decide) (by decide)
      (by rw [hev, hjs]; decide) (by rw [hev, hjs]; decide),
    h404.1 rfl⟩

/-! ## Conversation Dispatcher theorems -/

/-- Does the trace end with an assistant-entry append immediately
followed by the refresh and the final loading reset? -/
def endsWithAssistantRefresh : List SendEvent → Bool
  | [SendEvent.appendMsg e, SendEvent.refresh, SendEvent.setLoading false] =>
    e.role == Role.assistant
  | _ :: rest => endsWithAssistantRefresh rest
  | [] => false

/-- Claim C7: for every send whose trimmed text is non-empty, whether the
exchange resolves to a success or to a failure envelope, exactly one
Status Aggregator refresh is triggered, and it fires right after the
assistant entry is appended (followed only by the final loading reset),
so the dashboard reflects the just-completed exchange. -/
theorem send_refresh_once (input : String) (mode : ChatMode) (selectedAgent : String)
    (forceAllAgents : Bool) (sRes : CallResult SimpleChatResponseData)
    (mRes : CallResult QueryResponseData) (h : jsTrim input ≠ "") :
    countRefresh (handleSend input mode selectedAgent forceAllAgents sRes mRes) = 1
    ∧ endsWithAssistantRefresh
        (handleSend input mode selectedAgent forceAllAgents sRes mRes) = true := by
  simp only [handleSend]
  rw [if_neg h]
  cases mode <;> cases sRes <;> cases mRes <;> exact ⟨rfl, rfl⟩

theorem send_refresh_once_witness :
    (jsTrim "hello" ≠ "")
    ∧ countRefresh (handleSend "hello" ChatMode.multiAgent "coordinator" false
        (CallResult.fail "unreachable")
        (CallResult.fail "Request timed out. Backend is slow or unreachable.")) = 1
    ∧ endsWithAssistantRefresh (handleSend "hello" ChatMode.multiAgent "coordinator" false
        (CallResult.fail "unreachable")
        (CallResult.fail "Request timed out. Backend is slow or unreachable.")) = true := by
  have h := send_refresh_once "hello" ChatMode.multiAgent "coordinator" false
    (CallResult.fail "unreachable")
    (CallResult.fail "Request timed out. Backend is slow or unreachable.") (by decide)
  exact ⟨by decide, h.1, h.2⟩

/-- Claim C8: a successful send appends exactly one assistant entry whose
shape is determined by the active mode alone — multi-agent: final answer,
total cost, agents-used list and routing explanation, with the simple-chat
fields absent; simple: response text, cost, model identifier and agent
identifier, with the multi-agent fields absent — so the two shapes are
never cross-populated in one entry. -/
theorem send_success_entry_shape (input selectedAgent : String) (forceAllAgents : Bool)
    (sRes : CallResult SimpleChatResponseData) (mRes : CallResult QueryResponseData)
    (h : jsTrim input ≠ "") :
    (∀ d, mRes = CallResult.ok d →
      assistantEntries
          (handleSend input ChatMode.multiAgent selectedAgent forceAllAgents sRes mRes)
        = [{ role := Role.assistant, content := d.final_answer, cost := some d.total_cost,
             model_used := none, agent_id := none, agents_used := some d.agents_used,
             routing_decision := some d.routing_decision }])
    ∧ ∀ d, sRes = CallResult.ok d →
      assistantEntries
          (handleSend input ChatMode.simple selectedAgent forceAllAgents sRes mRes)
        = [{ role := Role.assistant, content := d.response, cost := some d.cost_usd,
             model_used := some d.model_used, agent_id := some d.agent_id,
             agents_used := none, routing_decision := none }] := by
  constructor
  · rintro d rfl
    simp only [handleSend]
    rw [if_neg h]
    rfl
  · rintro d rfl
    simp only [handleSend]
    rw [if_neg h]
    rfl

theorem send_success_entry_shape_witness :
    (jsTrim "hi" ≠ "")
    ∧ assistantEntries (handleSend "hi" ChatMode.multiAgent "coordinator" false
        (CallResult.fail "ignored")
        (CallResult.ok { final_answer := "answer", total_cost := 3,
                         agents_used := ["coordinator", "coder"], routing_decision := "both" }))
      = [{ role := Role.assistant, content := "answer", cost := some 3,
           model_used := none, agent_id := none,
           agents_used := some ["coordinator", "coder"], routing_decision := some "both" }]
    ∧ assistantEntries (handleSend "hi" ChatMode.simple "coder" false
        (CallResult.ok { response := "pong", cost_usd := 1, model_used := "llama",
                         agent_id := "coder" })
        (CallResult.fail "ignored"))
      = [{ role := Role.assistant, content := "pong", cost := some 1,
           model_used := some "llama", agent_id := some "coder",
           agents_used := none, routing_decision := none }] := by
  have hm := send_success_entry_shape "hi" "coordinator" false
    (CallResult.fail "ignored")
    (CallResult.ok { final_answer := "answer", total_cost := 3,
                     agents_used := ["coordinator", "coder"], routing_decision := "both" })
    (by decide)
  have hs := send_success_entry_shape "hi" "coder" false
    (CallResult.ok { response := "pong", cost_usd := 1, model_used := "llama",
                     agent_id := "coder" })
    (CallResult.fail "ignored") (by decide)
  exact ⟨by decide, hm.1 _ rfl, hs.2 _ rfl⟩

/-- Claim C9: a send whose text is empty or whitespace-only is a no-op —
its event trace is empty, so no entry is appended, no gateway call is
issued, no refresh is triggered, and the component state is unchanged. -/
theorem send_blank_noop (input : String) (mode : ChatMode) (selectedAgent : String)
    (forceAllAgents : Bool) (sRes : CallResult SimpleChatResponseData)
    (mRes : CallResult QueryResponseData) (s : AppState) (h : jsTrim input = "") :
    handleSend input mode selectedAgent forceAllAgents sRes mRes = []
    ∧ countGatewayCalls (handleSend input mode selectedAgent forceAllAgents sRes mRes) = 0
    ∧ applyTrace (handleSend input mode selectedAgent forceAllAgents sRes mRes) s = s := by
  have ht : handleSend input mode selectedAgent forceAllAgents sRes mRes = [] := by
    simp only [handleSend]
    rw [if_pos h]
  refine ⟨ht, ?_, ?_⟩
  · rw [ht]
    rfl
  · rw [ht]
    rfl

theorem send_blank_noop_witness :
    (jsTrim "   " = "")
    ∧ handleSend "   " ChatMode.simple "coder" false
        (CallResult.fail "ignored") (CallResult.fail "ignored") = []
    ∧ applyTrace (handleSend "   " ChatMode.simple "coder" false
        (CallResult.fail "ignored") (CallResult.fail "ignored"))
        { input := "   ", messages := [], loading := false }
      = { input := "   ", messages := [], loading := false } := by
  have h := send_blank_noop "   " ChatMode.simple "coder" false
    (CallResult.fail "ignored") (CallResult.fail "ignored")
    { input := "   ", messages := [], loading := false } (by decide)
  exact ⟨by decide, h.1, h.2.2⟩

/-! ## 3D mesh polling theorem -/

theorem mesh_entry_top_level (id : String) (env : RequestEnvelope) :
    isUndef (meshEntryOf id env).status = true
    ∧ isNumZero (meshEntryOf id env).failureCount = true := by
  cases env <;> exact ⟨rfl, rfl⟩

/-- Claim C10: in the 3D view's polling loop, the per-agent circuit
status and failure count are read from the top level of the gateway
envelope (`status.status`, `status.failure_count`) instead of its `data`
field; the envelope only carries `success` and `data`/`error` there, so
every agent's derived status is `undefined` and its failure count
defaults to 0 on every poll, whatever the backend reports. -/
theorem mesh_reads_top_level (fetchOf : String → FetchResult) (ids : List String) :
    (fetchStates fetchOf ids).all
      (fun v => isUndef v.status && isNumZero v.failureCount) = true := by
  induction ids with
  | nil => rfl
  | cons hd tl ih =>
    simp only [fetchStates, List.map_cons, List.all_cons] at *
    have h := mesh_entry_top_level hd
      (apiFetch ("/api/agents/" ++ hd ++ "/circuit") HttpMethod.get none (fetchOf hd))
    rw [h.1, h.2, ih]
    rfl

end CircuitBreakerMesh
